import Mathlib

/-!
Shallow embedding of the event deduplication, trigger-matching, and
at-most-once delivery engine of `src/server.js` (Instagram automation
server).  The code is a single-threaded async event processor over a
MongoDB document store; we model the store as lists of records, remote
network calls as an oracle (`Net`), wall-clock instants as natural
numbers of milliseconds, and fresh ObjectId generation as a counter.

Modelling conventions, matching the JavaScript semantics:
  * a field that may be absent or `undefined` is an `Option`;
  * JS `x || d` on strings/numbers treats `""` and `0` as falsy
    (`jsOrStr` / `jsOrNat`);
  * a MongoDB equality query `{f: v}` with `v` a string matches only
    documents where the field is present and equal (a query value that
    is JS `undefined` matches no document whose field is a string);
  * `new Date(...)` values stored in MongoDB come back as Date objects,
    which are always truthy, so the truthiness test on a stored
    timestamp is just presence of the field;
  * string interpolation of `undefined` produces the text "undefined".
-/

namespace ServerDM

/-- JS `s || d` for an optional string: `undefined` and `""` are falsy. -/
def jsOrStr (o : Option String) (d : String) : String :=
  match o with
  | none => d
  | some "" => d
  | some s => s

/-- JS `n || d` for an optional number: `undefined` and `0` are falsy. -/
def jsOrNat (o : Option Nat) (d : Nat) : Nat :=
  match o with
  | none => d
  | some 0 => d
  | some n => n

/-- JS template interpolation of a possibly-undefined string. -/
def jsShow (o : Option String) : String :=
  match o with
  | none => "undefined"
  | some s => s

/-- `sub` is a leading segment of `hay` (char-list version of
`String.startsWith`, used to build substring containment). -/
def charsLead : List Char → List Char → Bool
  | _, [] => true
  | [], _ :: _ => false
  | a :: as, b :: bs => a == b && charsLead as bs

/-- `sub` occurs contiguously inside `hay`. -/
def charsContain : List Char → List Char → Bool
  | [], sub => sub.isEmpty
  | a :: hay, sub => charsLead (a :: hay) sub || charsContain hay sub

/-- JS `hay.includes(sub)`: substring containment. -/
def jsIncludes (hay sub : String) : Bool :=
  charsContain hay.data sub.data

/-- JS `s.toLowerCase()` (ASCII case folding, as used by the server for
keywords and usernames). -/
def jsLower (s : String) : String :=
  ⟨s.data.map Char.toLower⟩

/-- Trigger Matcher, translated from `processCommentWithAutomations`
(src/server.js:305-307) and reused verbatim by the message path
(src/server.js:905-907):
`automation.triggerKeyword === "any" || (text && text.toLowerCase().includes(kw.toLowerCase()))`.
An absent text is `none`; an empty string is falsy in JS. -/
def triggerMatched (kw : String) (text : Option String) : Bool :=
  kw == "any" ||
    (match text with
     | none => false
     | some t => !(t == "") && jsIncludes (jsLower t) (jsLower kw))

/-- Access-token validity guard, translated from src/server.js:343-347:
`!token || token.includes("undefined") || token.includes("null")` means
invalid; an absent or empty token is falsy. -/
def tokenValid (tok : Option String) : Bool :=
  match tok with
  | none => false
  | some s => !(s == "") && !(jsIncludes s "undefined") && !(jsIncludes s "null")

/-! ## Data model: the document collections of src/server.js -/

/-- An `instagramAccounts` document. -/
structure Account where
  oid : String          -- `_id`
  userId : String
  username : String
  instagramId : Option String
  recipientId : Option String
  accessToken : Option String
deriving DecidableEq, Repr

/-- A `posts` document. -/
structure Post where
  oid : String          -- `_id`
  instagramAccountId : String
  instagramId : String  -- external media id
  caption : String
  permalink : String
deriving DecidableEq, Repr

/-- A `comments` document (stored inbound comment event). -/
structure StoredComment where
  oid : String          -- `_id`
  commentId : String
  mediaId : String
  postId : String
  text : String
  username : String
  userId : String
  processed : Bool
deriving DecidableEq, Repr

/-- An `automations` document. -/
structure Automation where
  oid : String          -- `_id`
  instagramAccountId : String
  postId : Option String      -- absent/null both mean "any post"
  type : String               -- "comment" or "message"
  triggerKeyword : String
  active : Bool
  message : Option String
  addBranding : Option Bool   -- branding added unless literally `false`
  brandingMessage : Option String
  replyToComments : Bool
  commentReply : Option String
  useOpeningMessage : Bool
  openingMessage : Option String
  buttonText : Option String
  rateLimit : Option Nat
  totalDMsSent : Nat
  lastTriggered : Option Nat
deriving DecidableEq, Repr

/-- A `directMessages` document (DeliveryRecord). The message-path
inserts omit `commentId` and `type`; the failed-send log can store an
`undefined` message, so `message` is optional. -/
structure DirectMessage where
  oid : String          -- `_id`
  automationId : String
  recipientUsername : String
  recipientId : String
  commentId : Option String
  message : Option String
  dmType : Option String      -- `type`: "opening" / "direct"
  status : String             -- "sent" / "failed"
  error : Option String
  sentAt : Nat
  isAutomated : Bool
deriving DecidableEq, Repr

/-- A `commentReplies` document (CommentReplyRecord). -/
structure CommentReply where
  oid : String          -- `_id`
  automationId : String
  commentId : String
  username : String
  reply : String
  status : String
  sentAt : Nat
deriving DecidableEq, Repr

/-- An `incomingMessages` document.  NOTE: the insert in
`processMessage` (src/server.js:804-812) does not set a `recipientId`
field, hence it is an `Option` that the insert leaves `none`. -/
structure IncomingMessage where
  oid : String          -- `_id`
  instagramAccountId : String
  senderId : String
  senderUsername : String
  message : String
  timestamp : Option Nat      -- stored as a BSON Date when present
  recipientId : Option String
  processed : Bool
  skipped : Bool
  skipReason : Option String
deriving DecidableEq, Repr

/-- A `contacts` document (fields the core reads). -/
structure Contact where
  oid : String          -- `_id`
  instagramAccountId : String
  senderId : String
  username : String
  lastMessage : String
  unread : Bool
deriving DecidableEq, Repr

/-- A `messages` document (chat-history mirror for the UI). -/
structure ChatMessage where
  oid : String          -- `_id`
  contactId : String
  fromMe : Bool
  message : String
  isAutomated : Bool
deriving DecidableEq, Repr

/-- The document store. Lists keep insertion order; `findOne` is
`List.find?` (first match), `insertOne` appends. -/
structure DB where
  instagramAccounts : List Account
  posts : List Post
  comments : List StoredComment
  automations : List Automation
  directMessages : List DirectMessage
  commentReplies : List CommentReply
  incomingMessages : List IncomingMessage
  contacts : List Contact
  messages : List ChatMessage
  instagramIdMappings : List (String × String)   -- instagramId ↦ accountId
deriving DecidableEq, Repr

/-- Remote-API oracle: `remoteOk k` is the outcome of the `k`-th
outbound network send of the run (DM sends and comment replies);
`fetchUsername` and `fetchPost` model the Graph-API GET lookups. -/
structure Net where
  remoteOk : Nat → Bool
  fetchUsername : String → Option String
  fetchPost : String → String → Option (Option String × Option String)
    -- accessToken, mediaId ↦ (caption, permalink) on HTTP 200

/-- Run state: the store plus a fresh-ObjectId counter, the number of
outbound network sends attempted so far, and the log of backoff sleeps
(milliseconds) performed by retry loops. -/
structure World where
  db : DB
  nextId : Nat
  calls : Nat
  sleeps : List Nat
deriving DecidableEq, Repr

/-- Allocate a fresh ObjectId string. -/
def freshId (w : World) : String × World :=
  (toString w.nextId, { w with nextId := w.nextId + 1 })

/-! ## Inbound events -/

/-- The `from` object of a webhook comment payload. -/
structure FromUser where
  id : String
  username : Option String
deriving DecidableEq, Repr

/-- A comment event as delivered to `processComment`. -/
structure CommentEv where
  id : String
  media_id : String
  text : Option String
  fromUser : FromUser     -- `from`
deriving DecidableEq, Repr

/-- A message event as delivered to `processMessage` (already
destructured: `sender`, `recipient`, `message`, `timestamp`). -/
structure MessageEv where
  senderId : String
  senderUsername : Option String
  recipientId : String
  text : Option String
  timestamp : Option Nat
  isEcho : Bool
deriving DecidableEq, Repr

/-- The result object returned by the comment/message processors. -/
structure PResult where
  success : Bool
  message : String
  processed : Option Bool
  messagesSent : Option Nat
deriving DecidableEq, Repr

/-! ## Shared query helpers (translated from the inline Mongo queries) -/

/-- The default branding suffix (the literal bytes of src/server.js). -/
def brandingDefault : String :=
  "âš¡ Sent via ChatAutoDM â€” grow your DMs on autopilot"

/-- The default opening message of src/server.js:395-397. -/
def defaultOpeningMsg : String :=
  "Hey there! I\x27m so happy you\x27re here, thanks so much for your interest ðŸ˜Š\n\nClick below and I\x27ll send you the link in just a sec âœ¨"

/-- `fullMessage` composition: append the branding suffix unless
`automation.addBranding !== false` fails (src/server.js:497-499). -/
def addBrandingTo (a : Automation) (m : String) : String :=
  if a.addBranding == some false then m
  else m ++ "\n\n" ++ jsOrStr a.brandingMessage brandingDefault

/-- The cross-automation dedup query of src/server.js:317-320:
`{recipientUsername: comment.from?.username, commentId: comment.id}`.
When the username is absent the query value is `undefined`, which
matches no stored record (the field is always a string). -/
def dmPairPred (uname : Option String) (cid : String) (d : DirectMessage) : Bool :=
  (match uname with
   | some u => d.recipientUsername == u
   | none => false) && d.commentId == some cid

/-- The rate-limiter count of src/server.js:331-335: `sent`
DeliveryRecords of this automation with `sentAt >= now - 1h`. -/
def recentSentCount (db : DB) (aid : String) (now : Nat) : Nat :=
  (db.directMessages.filter (fun d =>
    d.automationId == aid && decide (now - 3600000 ≤ d.sentAt) && d.status == "sent")).length

/-- The rate-limit guard of src/server.js:337:
`recentDMs >= (automation.rateLimit || 10)`. -/
def rateLimitExceeded (db : DB) (a : Automation) (now : Nat) : Bool :=
  decide (jsOrNat a.rateLimit 10 ≤ recentSentCount db a.oid now)

/-! ## Comment path: `processCommentWithAutomations` (src/server.js:248-590) -/

/-- Append one `directMessages` document (Mongo `insertOne`). -/
def insertDM (w : World) (d : String → DirectMessage) : World :=
  let (oid, w) := freshId w
  { w with db := { w.db with directMessages := w.db.directMessages ++ [d oid] } }

/-- Append one `commentReplies` document. -/
def insertReply (w : World) (r : String → CommentReply) : World :=
  let (oid, w) := freshId w
  { w with db := { w.db with commentReplies := w.db.commentReplies ++ [r oid] } }

/-- Consume one outbound network send from the oracle. -/
def remoteSend (net : Net) (w : World) : Bool × World :=
  (net.remoteOk w.calls, { w with calls := w.calls + 1 })

/-- The reply-to-comment step of src/server.js:361-387: if no
`commentReplies` record exists for the comment id, call the remote
`replyToComment` and, on success, log the reply; a failure is caught
and logged only (no record). -/
def replyStep (c : CommentEv) (a : Automation) (now : Nat) (net : Net) (w : World) : World :=
  if ((w.db.commentReplies.find? (fun r => r.commentId == c.id)).isSome) then w
  else
    let s := remoteSend net w
    if s.1 then
      insertReply s.2 (fun oid =>
        { oid := oid
          automationId := a.oid
          commentId := c.id
          username := jsOrStr c.fromUser.username "unknown"
          reply := jsOrStr a.commentReply "Thanks! Please check your DMs."
          status := "sent"
          sentAt := now })
    else s.2

/-- One DM-send attempt of the comment loop (src/server.js:389-568):
with `useOpeningMessage`, first try the quick-replies send, falling
back to a plain branded DM; otherwise send the plain branded DM.  On
success log a `sent` record; the enclosing catch logs a `failed`
record.  Returns the updated world and whether the send succeeded. -/
def dmSendStep (c : CommentEv) (a : Automation) (now : Nat) (net : Net) (w : World) :
    World × Bool :=
  let uname := jsOrStr c.fromUser.username "unknown"
  let failedRecord : World → World := fun w =>
    insertDM w (fun oid =>
      { oid := oid
        automationId := a.oid
        recipientUsername := uname
        recipientId := c.fromUser.id
        commentId := some c.id
        message := if a.useOpeningMessage then a.openingMessage else a.message
        dmType := none
        status := "failed"
        error := some "send failed"
        sentAt := now
        isAutomated := false })
  if a.useOpeningMessage then
    let opening := jsOrStr a.openingMessage defaultOpeningMsg
    let s₁ := remoteSend net w
    if s₁.1 then
      (insertDM s₁.2 (fun oid =>
        { oid := oid
          automationId := a.oid
          recipientUsername := uname
          recipientId := c.fromUser.id
          commentId := some c.id
          message := some opening
          dmType := some "opening"
          status := "sent"
          error := none
          sentAt := now
          isAutomated := false }), true)
    else
      -- fallback: `openingMessage + "\n\n" + automation.message` (a JS
      -- string concatenation, so an unset message prints "undefined")
      let fullMessage := addBrandingTo a (opening ++ "\n\n" ++ jsShow a.message)
      let s₂ := remoteSend net s₁.2
      if s₂.1 then
        (insertDM s₂.2 (fun oid =>
          { oid := oid
            automationId := a.oid
            recipientUsername := uname
            recipientId := c.fromUser.id
            commentId := some c.id
            message := some fullMessage
            dmType := some "direct"
            status := "sent"
            error := none
            sentAt := now
            isAutomated := false }), true)
      else (failedRecord s₂.2, false)
  else
    let fullMessage := addBrandingTo a (jsOrStr a.message "Thank you for your comment!")
    let s := remoteSend net w
    if s.1 then
      (insertDM s.2 (fun oid =>
        { oid := oid
          automationId := a.oid
          recipientUsername := uname
          recipientId := c.fromUser.id
          commentId := some c.id
          message := some fullMessage
          dmType := some "direct"
          status := "sent"
          error := none
          sentAt := now
          isAutomated := false }), true)
    else (failedRecord s.2, false)

/-- The post-send bookkeeping of src/server.js:539-545: bump the
automation counter and set `lastTriggered`. -/
def bumpAutomationStats (aid : String) (now : Nat) (w : World) : World :=
  { w with db := { w.db with automations := w.db.automations.map (fun a =>
      if a.oid == aid then
        { a with totalDMsSent := a.totalDMsSent + 1, lastTriggered := some now }
      else a) } }

/-- The automation loop of src/server.js:303-569.  `apFlag` models the
`automationProcessed` variable; the returned `Nat` is `messagesSent`.
A found cross-automation DM for this (recipient, comment) pair breaks
the whole loop; a successful send breaks after the stats update; a
failed send logs and continues with the remaining automations. -/
def pcwaLoop (c : CommentEv) (acct : Account) (now : Nat) (net : Net) :
    List Automation → World → Bool → Nat → World × Nat
  | [], w, _, sent => (w, sent)
  | a :: rest, w, apFlag, sent =>
    if triggerMatched a.triggerKeyword c.text = false then
      pcwaLoop c acct now net rest w apFlag sent
    else if (w.db.directMessages.find? (dmPairPred c.fromUser.username c.id)).isSome then
      (w, sent)                      -- break: skip all further automations
    else if rateLimitExceeded w.db a now then
      pcwaLoop c acct now net rest w apFlag sent
    else if tokenValid acct.accessToken = false then
      pcwaLoop c acct now net rest w apFlag sent
    else
      let w₁ := if a.replyToComments && !apFlag then replyStep c a now net w else w
      let res := dmSendStep c a now net w₁
      if res.2 then (bumpAutomationStats a.oid now res.1, sent + 1)  -- break after success
      else pcwaLoop c acct now net rest res.1 apFlag sent

/-- The automation query of src/server.js:275-286: active automations
of this account scoped to this post or to any post. -/
def automationsFor (db : DB) (post : Post) (acct : Account) : List Automation :=
  db.automations.filter (fun a =>
    (a.postId == some post.oid || a.postId == none) &&
      a.instagramAccountId == acct.oid && a.active)

/-- Store the inbound comment if it is new (src/server.js:251-264). -/
def insertComment (c : CommentEv) (post : Post) (w : World) : World :=
  let (oid, w) := freshId w
  { w with db := { w.db with comments := w.db.comments ++
      [{ oid := oid
         commentId := c.id
         mediaId := c.media_id
         postId := post.oid
         text := jsOrStr c.text ""
         username := jsOrStr c.fromUser.username "unknown"
         userId := jsOrStr (some c.fromUser.id) "unknown"
         processed := false }] } }

/-- `updateMany({commentId}, {$set: {processed: true}})`
(src/server.js:571-574). -/
def markCommentProcessed (cid : String) (w : World) : World :=
  { w with db := { w.db with comments := w.db.comments.map (fun r =>
      if r.commentId == cid then { r with processed := true } else r) } }

/-- The skip result of src/server.js:267-271. -/
def alreadyProcessedResult (cid : String) : PResult :=
  { success := true
    message := "Comment " ++ cid ++ " already processed"
    processed := some false
    messagesSent := none }

/-- The main body after the stored comment is known to be fresh
(src/server.js:274-581). -/
def pcwaMain (c : CommentEv) (post : Post) (acct : Account) (now : Nat) (net : Net)
    (w : World) : World × PResult :=
  let autos := automationsFor w.db post acct
  if autos.isEmpty then
    (w, { success := true
          message := "No active automations found for post " ++ post.oid
          processed := some false
          messagesSent := none })
  else
    let res := pcwaLoop c acct now net autos w false 0
    (markCommentProcessed c.id res.1,
     { success := true
       message := "Processed comment " ++ c.id
       processed := some true
       messagesSent := some res.2 })

/-- `processCommentWithAutomations` (src/server.js:248-590). -/
def processCommentWithAutomations (c : CommentEv) (post : Post) (acct : Account)
    (now : Nat) (net : Net) (w : World) : World × PResult :=
  match w.db.comments.find? (fun r => r.commentId == c.id) with
  | none => pcwaMain c post acct now net (insertComment c post w)
  | some ec =>
    if ec.processed then (w, alreadyProcessedResult c.id)
    else pcwaMain c post acct now net w

/-! ## Comment entry point: `processComment` (src/server.js:129-183) -/

/-- `findOrCreatePost` (src/server.js:186-245): look the post up by
media id; otherwise walk the accounts, skipping malformed tokens, and
create the post from the first successful remote metadata fetch. -/
def findOrCreatePost (mediaId : String) (net : Net) (w : World) : World × Option Post :=
  match w.db.posts.find? (fun p => p.instagramId == mediaId) with
  | some p => (w, some p)
  | none => fopLoop mediaId net w.db.instagramAccounts w
where
  /-- The account loop of src/server.js:198-238. -/
  fopLoop (mediaId : String) (net : Net) : List Account → World → World × Option Post
  | [], w => (w, none)
  | acct :: rest, w =>
    if tokenValid acct.accessToken = false then fopLoop mediaId net rest w
    else
      match net.fetchPost (acct.accessToken.getD "") mediaId with
      | none => fopLoop mediaId net rest w
      | some (caption, permalink) =>
        let (oid, w) := freshId w
        let newPost : Post :=
          { oid := oid
            instagramAccountId := acct.oid
            instagramId := mediaId
            caption := caption.getD ""
            permalink := permalink.getD "" }
        ({ w with db := { w.db with posts := w.db.posts ++ [newPost] } }, some newPost)

/-- The self-comment guard of src/server.js:134-137: the commenting
username (case-folded) is one of the automation accounts. -/
def isFromAutomationAccount (db : DB) (c : CommentEv) : Bool :=
  match c.fromUser.username with
  | some u => (db.instagramAccounts.map (fun a => jsLower a.username)).contains (jsLower u)
  | none => false

/-- The replay guard of src/server.js:146-150: a `comments` record for
this external comment id already marked processed. -/
def commentAlreadyProcessed (db : DB) (cid : String) : Bool :=
  (db.comments.find? (fun r => r.commentId == cid && r.processed)).isSome

/-- `processComment` (src/server.js:129-183).  An `Except.error` models
a thrown error (caught by the HTTP route, which answers 500). -/
def processComment (c : CommentEv) (now : Nat) (net : Net) (w : World) :
    World × Except String PResult :=
  if isFromAutomationAccount w.db c then
    (w, Except.ok
      { success := true
        message := "Skipped comment from automation account: " ++ jsShow c.fromUser.username
        processed := some false
        messagesSent := none })
  else if commentAlreadyProcessed w.db c.id then
    (w, Except.ok (alreadyProcessedResult c.id))
  else
    match findOrCreatePost c.media_id net w with
    | (w, none) =>
      (w, Except.error ("Could not find or create post for media " ++ c.media_id))
    | (w, some post) =>
      match w.db.instagramAccounts.find? (fun a => a.oid == post.instagramAccountId) with
      | none =>
        (w, Except.error ("Instagram account " ++ post.instagramAccountId ++ " not found"))
      | some acct =>
        let res := processCommentWithAutomations c post acct now net w
        (res.1, Except.ok res.2)

/-! ## Message path: `processMessage` (src/server.js:704-1082) -/

/-- The result object of `processMessage`. -/
structure MResult where
  success : Bool
  message : String
  processed : Option Bool
  messagesSent : Option Nat
  contactId : Option String
deriving DecidableEq, Repr

/-- The send-with-retry loop of src/server.js:962-995: up to 3
attempts; after a failed attempt `k < 3` the code waits `k * 1000` ms
(`setTimeout`) before the next one.  Returns success and the updated
world (network-call counter and sleep log). -/
def sendWithRetry (net : Net) (w : World) : Bool × World :=
  let w₁ := { w with calls := w.calls + 1 }
  if net.remoteOk w.calls then (true, w₁)
  else
    let w₁ := { w₁ with sleeps := w₁.sleeps ++ [1000] }
    let w₂ := { w₁ with calls := w₁.calls + 1 }
    if net.remoteOk w₁.calls then (true, w₂)
    else
      let w₂ := { w₂ with sleeps := w₂.sleeps ++ [2000] }
      let w₃ := { w₂ with calls := w₂.calls + 1 }
      if net.remoteOk w₂.calls then (true, w₃)
      else (false, w₃)

/-- Account resolution for a message event (src/server.js:723-781):
by `instagramId`, then by legacy `recipientId` (persisting the
`instagramId` for future lookups), then falling back to the first
account and recording an id mapping. -/
def resolveAccountForMessage (rid : String) (w : World) : World × Option Account :=
  match w.db.instagramAccounts.find? (fun a => a.instagramId == some rid) with
  | some acct => (w, some acct)
  | none =>
    match w.db.instagramAccounts.find? (fun a => a.recipientId == some rid) with
    | some acct =>
      -- `updateOne` sets instagramId in the store; the in-memory object
      -- used by the rest of the run is the one that was found
      ({ w with db := { w.db with instagramAccounts := w.db.instagramAccounts.map (fun a =>
          if a.oid == acct.oid then { a with instagramId := some rid } else a) } },
       some acct)
    | none =>
      match w.db.instagramAccounts with
      | [] => (w, none)
      | a0 :: _ =>
        -- fallback: first account, upsert the id ↦ account mapping
        let mapped := w.db.instagramIdMappings.map (fun m =>
          if m.1 == rid then (m.1, a0.oid) else m)
        let mappings := if (w.db.instagramIdMappings.find? (fun m => m.1 == rid)).isSome
          then mapped else w.db.instagramIdMappings ++ [(rid, a0.oid)]
        ({ w with db := { w.db with instagramIdMappings := mappings } }, some a0)

/-- Find or create the contact for this sender (src/server.js:814-874).
On creation the username may be refreshed from the remote API when the
token is well-formed; an existing contact gets its last-message fields
updated while the in-memory object stays the one that was found. -/
def findOrCreateContact (ev : MessageEv) (acct : Account) (net : Net) (w : World) :
    World × Contact :=
  match w.db.contacts.find? (fun ct =>
      ct.instagramAccountId == acct.oid && ct.senderId == ev.senderId) with
  | some ct =>
    ({ w with db := { w.db with contacts := w.db.contacts.map (fun x =>
        if x.oid == ct.oid then { x with lastMessage := jsOrStr ev.text "", unread := true }
        else x) } },
     ct)
  | none =>
    let uname0 := jsOrStr ev.senderUsername "unknown"
    let uname := if tokenValid acct.accessToken
      then jsOrStr (net.fetchUsername ev.senderId) uname0
      else uname0
    let newCt : Contact :=
      { oid := toString w.nextId
        instagramAccountId := acct.oid
        senderId := ev.senderId
        username := jsLower uname
        lastMessage := jsOrStr ev.text ""
        unread := true }
    ({ w with
        nextId := w.nextId + 1
        db := { w.db with contacts := w.db.contacts ++ [newCt] } },
     newCt)

/-- The message automation loop of src/server.js:902-1058: trigger
match, per-automation 24-hour dedup against the sender, rate limit,
token check, then a retried send; success logs a `sent` record plus a
chat-history mirror (sharing one fresh id) and bumps the stats, and a
failure logs a `failed` record; either way the loop continues with the
next automation. -/
def pmLoop (ev : MessageEv) (acct : Account) (ct : Contact) (now : Nat) (net : Net) :
    List Automation → World → Nat → World × Nat
  | [], w, sent => (w, sent)
  | a :: rest, w, sent =>
    if triggerMatched a.triggerKeyword ev.text = false then
      pmLoop ev acct ct now net rest w sent
    else if (w.db.directMessages.find? (fun d =>
        d.automationId == a.oid && d.recipientId == ev.senderId && d.status == "sent" &&
          decide (now - 86400000 ≤ d.sentAt))).isSome then
      pmLoop ev acct ct now net rest w sent
    else if rateLimitExceeded w.db a now then
      pmLoop ev acct ct now net rest w sent
    else if tokenValid acct.accessToken = false then
      pmLoop ev acct ct now net rest w sent
    else
      let responseMessage := addBrandingTo a (jsOrStr a.message "Thank you for your message!")
      let sr := sendWithRetry net w
      if sr.1 then
        let amid := toString sr.2.nextId
        let w' := { sr.2 with
          nextId := sr.2.nextId + 1
          db := { sr.2.db with
            directMessages := sr.2.db.directMessages ++
              [{ oid := amid
                 automationId := a.oid
                 recipientUsername := ct.username
                 recipientId := ev.senderId
                 commentId := none
                 message := some responseMessage
                 dmType := none
                 status := "sent"
                 error := none
                 sentAt := now
                 isAutomated := true }]
            messages := sr.2.db.messages ++
              [{ oid := amid
                 contactId := ct.oid
                 fromMe := true
                 message := responseMessage
                 isAutomated := true }] } }
        pmLoop ev acct ct now net rest (bumpAutomationStats a.oid now w') (sent + 1)
      else
        let w' := insertDM sr.2 (fun oid =>
          { oid := oid
            automationId := a.oid
            recipientUsername := ct.username
            recipientId := ev.senderId
            commentId := none
            message := some responseMessage
            dmType := none
            status := "failed"
            error := some "send failed"
            sentAt := now
            isAutomated := true })
        pmLoop ev acct ct now net rest w' sent

/-- `updateMany({senderId, recipientId, processed: false}, {$set:
{processed: true}})` of src/server.js:1060-1066.  A document without a
`recipientId` field does not match the string equality. -/
def markMessagesProcessed (sid rid : String) (w : World) : World :=
  { w with db := { w.db with incomingMessages := w.db.incomingMessages.map (fun m =>
      if m.senderId == sid && m.recipientId == some rid && !m.processed then
        { m with processed := true }
      else m) } }

/-- `processMessage` (src/server.js:704-1082). -/
def processMessage (ev : MessageEv) (now : Nat) (net : Net) (w : World) : World × MResult :=
  if ev.isEcho then
    (w, { success := true, message := "Skipped echo message", processed := some false,
          messagesSent := none, contactId := none })
  else
    let ra := resolveAccountForMessage ev.recipientId w
    match ra.2 with
    | none =>
      (ra.1, { success := false
               message := "Instagram account with ID " ++ ev.recipientId ++ " not found"
               processed := none, messagesSent := none, contactId := none })
    | some acct =>
      let w := ra.1
      let tsVal := jsOrNat ev.timestamp now      -- `new Date(timestamp || Date.now())`
      if (w.db.incomingMessages.find? (fun m =>
          m.senderId == ev.senderId && m.message == jsOrStr ev.text "" &&
            m.timestamp == some tsVal && m.processed)).isSome then
        (w, { success := true, message := "Message already processed", processed := some false,
              messagesSent := none, contactId := none })
      else
        let mid := toString w.nextId
        let w := { w with
          nextId := w.nextId + 1
          db := { w.db with incomingMessages := w.db.incomingMessages ++
            [{ oid := mid
               instagramAccountId := acct.oid
               senderId := ev.senderId
               senderUsername := jsOrStr ev.senderUsername "unknown"
               message := jsOrStr ev.text ""
               timestamp := some tsVal
               recipientId := none     -- the insert sets no recipientId field
               processed := false
               skipped := false
               skipReason := none }] } }
        let fc := findOrCreateContact ev acct net w
        let w := { fc.1 with db := { fc.1.db with messages := fc.1.db.messages ++
          [{ oid := mid
             contactId := fc.2.oid
             fromMe := false
             message := jsOrStr ev.text ""
             isAutomated := false }] } }
        let autos := w.db.automations.filter (fun a =>
          a.instagramAccountId == acct.oid && a.type == "message" && a.active)
        let lr := pmLoop ev acct fc.2 now net autos w 0
        (markMessagesProcessed ev.senderId ev.recipientId lr.1,
         { success := true
           message := "Processed message from " ++ ev.senderId
           processed := none
           messagesSent := some lr.2
           contactId := some fc.2.oid })

/-! ## Background poller: the pending-messages job (src/server.js:1185-1233) -/

/-- The batch pulled each tick: up to 20 unprocessed messages
(src/server.js:1187-1192; the sort key `createdAt` is not a field the
insert ever writes, so the stored order is kept). -/
def pendingBatch (db : DB) : List IncomingMessage :=
  (db.incomingMessages.filter (fun m => !m.processed)).take 20

/-- The filter of src/server.js:1198 keeping a pending message for
re-processing: `!msg.timestamp || new Date(msg.timestamp) > oneDayAgo`
(a stored Date object is always truthy, so the first disjunct is just
absence of the field). -/
def pollRecentPred (oneDayAgo : Nat) (m : IncomingMessage) : Bool :=
  m.timestamp.isNone || decide (oneDayAgo < m.timestamp.getD 0)

/-- The filter of src/server.js:1205 selecting the messages to mark as
too old: `msg.timestamp && new Date(msg.timestamp) <= oneDayAgo`. -/
def pollStalePred (oneDayAgo : Nat) (m : IncomingMessage) : Bool :=
  m.timestamp.isSome && decide (m.timestamp.getD 0 ≤ oneDayAgo)

/-- The `updateMany` of src/server.js:1208-1215 applied to one record. -/
def pollMarkStale (oldIds : List String) (m : IncomingMessage) : IncomingMessage :=
  if oldIds.contains m.oid then
    { m with processed := true, skipped := true, skipReason := some "Too old" }
  else m

/-- How the poller rebuilds a message event from a stored record
(src/server.js:1220-1225): `recipient.id` falls back to "unknown" when
the record has no `recipientId`. -/
def refeedEv (m : IncomingMessage) : MessageEv :=
  { senderId := m.senderId
    senderUsername := some m.senderUsername
    recipientId := jsOrStr m.recipientId "unknown"
    text := some m.message
    timestamp := m.timestamp
    isEcho := false }

/-- One tick of the pending-messages poller (src/server.js:1185-1233):
messages older than 24 hours are marked processed+skipped "Too old";
the remaining ones are re-fed to `processMessage`.  Returns the new
world, the re-fed batch, and the ids marked stale. -/
def pollPendingMessagesOnce (now : Nat) (net : Net) (w : World) :
    World × List IncomingMessage × List String :=
  let pending := pendingBatch w.db
  let oneDayAgo := now - 86400000
  let recent := pending.filter (pollRecentPred oneDayAgo)
  let oldIds := (pending.filter (pollStalePred oneDayAgo)).map (fun m => m.oid)
  let w :=
    if recent.length < pending.length then
      { w with db := { w.db with incomingMessages :=
          w.db.incomingMessages.map (pollMarkStale oldIds) } }
    else w
  let w := recent.foldl (fun acc m => (processMessage (refeedEv m) now net acc).1) w
  (w, recent, oldIds)

/-! ### `processMessage` never unmarks a processed record -/

theorem resolveAccountForMessage_incoming (rid : String) (w : World) :
    (resolveAccountForMessage rid w).1.db.incomingMessages = w.db.incomingMessages := by
  unfold resolveAccountForMessage
  split
  · rfl
  · split
    · rfl
    · split
      · rfl
      · rfl

theorem findOrCreateContact_incoming (ev : MessageEv) (acct : Account) (net : Net)
    (w : World) :
    (findOrCreateContact ev acct net w).1.db.incomingMessages = w.db.incomingMessages := by
  unfold findOrCreateContact
  split <;> rfl

theorem sendWithRetry_db (net : Net) (w : World) : (sendWithRetry net w).2.db = w.db := by
  unfold sendWithRetry
  dsimp only
  split
  · rfl
  · split
    · rfl
    · split <;> rfl

theorem pmLoop_incoming (ev : MessageEv) (acct : Account) (ct : Contact) (now : Nat)
    (net : Net) :
    ∀ (as : List Automation) (w : World) (sent : Nat),
      ((pmLoop ev acct ct now net as w sent).1).db.incomingMessages =
        w.db.incomingMessages := by
  intro as
  induction as with
  | nil => intro w sent; rfl
  | cons a rest ih =>
    intro w sent
    simp only [pmLoop]
    split
    · exact ih w sent
    · split
      · exact ih w sent
      · split
        · exact ih w sent
        · split
          · exact ih w sent
          · split
            · rw [ih]
              show (bumpAutomationStats a.oid now _).db.incomingMessages = _
              simp only [bumpAutomationStats]
              rw [show (sendWithRetry net w).2.db.incomingMessages = w.db.incomingMessages
                from congrArg DB.incomingMessages (sendWithRetry_db net w)]
            · rw [ih]
              show (insertDM (sendWithRetry net w).2 _).db.incomingMessages = _
              simp only [insertDM, freshId]
              exact congrArg DB.incomingMessages (sendWithRetry_db net w)

theorem markMessagesProcessed_preserves_processed (sid rid : String) (w : World)
    (r : IncomingMessage) (hr : r ∈ w.db.incomingMessages) (hp : r.processed = true) :
    r ∈ (markMessagesProcessed sid rid w).db.incomingMessages := by
  simp only [markMessagesProcessed]
  have hfix : (fun m : IncomingMessage =>
      if m.senderId == sid && m.recipientId == some rid && !m.processed then
        { m with processed := true }
      else m) r = r := by
    simp [hp]
  have hmem := List.mem_map_of_mem (fun m : IncomingMessage =>
      if m.senderId == sid && m.recipientId == some rid && !m.processed then
        { m with processed := true }
      else m) hr
  rwa [hfix] at hmem

/-- Re-running `processMessage` never reverses a processed inbound
record: the only write to `incomingMessages` besides the append is the
final `updateMany`, whose filter requires `processed: false`. -/
theorem processMessage_preserves_processed (ev : MessageEv) (now : Nat) (net : Net)
    (w : World) (r : IncomingMessage) (hr : r ∈ w.db.incomingMessages)
    (hp : r.processed = true) :
    r ∈ ((processMessage ev now net w).1).db.incomingMessages := by
  unfold processMessage
  split
  · exact hr
  · dsimp only
    have hra := resolveAccountForMessage_incoming ev.recipientId w
    rcases h2 : (resolveAccountForMessage ev.recipientId w).2 with _ | acct
    · dsimp only
      rw [hra]
      exact hr
    · dsimp only
      split
      · rw [hra]; exact hr
      · refine markMessagesProcessed_preserves_processed _ _ _ r ?_ hp
        rw [pmLoop_incoming]
        show r ∈ (findOrCreateContact ev acct net _).1.db.incomingMessages
        rw [findOrCreateContact_incoming]
        show r ∈ (resolveAccountForMessage ev.recipientId w).1.db.incomingMessages ++ _
        rw [hra]
        exact List.mem_append_left _ hr

/-- Folding `processMessage` over a batch keeps every processed
record in the store. -/
theorem refeed_preserves_processed (now : Nat) (net : Net) :
    ∀ (msgs : List IncomingMessage) (w : World) (r : IncomingMessage),
      r ∈ w.db.incomingMessages → r.processed = true →
      r ∈ (msgs.foldl (fun acc m =>
          (processMessage (refeedEv m) now net acc).1) w).db.incomingMessages := by
  intro msgs
  induction msgs with
  | nil => intro w r hr _; exact hr
  | cons m rest ih =>
    intro w r hr hp
    exact ih _ r (processMessage_preserves_processed _ now net w r hr hp) hp

/-! ## Counting DeliveryRecords and CommentReplyRecords -/

/-- Number of `sent` DeliveryRecords correlated to a (recipient
username, comment id) pair in a record list. -/
def countSentPair (l : List DirectMessage) (u : Option String) (cid : String) : Nat :=
  (l.filter (fun d => dmPairPred u cid d && d.status == "sent")).length

/-- Number of `sent` DeliveryRecords correlated to a (recipient
username, comment id) pair. -/
def pairSentCount (db : DB) (u : Option String) (cid : String) : Nat :=
  countSentPair db.directMessages u cid

/-- Number of CommentReplyRecords for a comment id in a record list. -/
def countReplies (l : List CommentReply) (cid : String) : Nat :=
  (l.filter (fun r => r.commentId == cid)).length

/-- Number of CommentReplyRecords for a comment id. -/
def replyCountFor (db : DB) (cid : String) : Nat :=
  countReplies db.commentReplies cid

theorem countSentPair_append (l : List DirectMessage) (r : DirectMessage)
    (u : Option String) (cid : String) :
    countSentPair (l ++ [r]) u cid =
      countSentPair l u cid + (if dmPairPred u cid r && r.status == "sent" then 1 else 0) := by
  simp only [countSentPair, List.filter_append, List.length_append]
  split <;> rename_i h <;> simp [List.filter, h]

theorem countReplies_append (l : List CommentReply) (r : CommentReply) (cid : String) :
    countReplies (l ++ [r]) cid =
      countReplies l cid + (if r.commentId == cid then 1 else 0) := by
  simp only [countReplies, List.filter_append, List.length_append]
  split <;> rename_i h <;> simp [List.filter, h]

theorem countSentPair_zero_of_find?_none (l : List DirectMessage) (u : Option String)
    (cid : String) (h : l.find? (dmPairPred u cid) = none) :
    countSentPair l u cid = 0 := by
  have hall := List.find?_eq_none.mp h
  simp only [countSentPair, List.length_eq_zero]
  refine List.filter_eq_nil_iff.mpr (fun d hd => ?_)
  have := hall d hd
  simp only [Bool.and_eq_true, not_and]
  intro hp
  exact absurd hp this

theorem countReplies_zero_of_find?_none (l : List CommentReply) (cid : String)
    (h : l.find? (fun r => r.commentId == cid) = none) :
    countReplies l cid = 0 := by
  have hall := List.find?_eq_none.mp h
  simp only [countReplies, List.length_eq_zero]
  exact List.filter_eq_nil_iff.mpr (fun r hr => hall r hr)

theorem replyStep_directMessages (c : CommentEv) (a : Automation) (now : Nat) (net : Net)
    (w : World) : (replyStep c a now net w).db.directMessages = w.db.directMessages := by
  simp only [replyStep, insertReply, remoteSend, freshId]
  split
  · rfl
  · split <;> rfl

theorem dmSendStep_commentReplies (c : CommentEv) (a : Automation) (now : Nat) (net : Net)
    (w : World) : ((dmSendStep c a now net w).1).db.commentReplies = w.db.commentReplies := by
  simp only [dmSendStep, insertDM, remoteSend, freshId]
  split
  · split
    · rfl
    · split <;> rfl
  · split <;> rfl

theorem bumpAutomationStats_directMessages (aid : String) (now : Nat) (w : World) :
    (bumpAutomationStats aid now w).db.directMessages = w.db.directMessages := rfl

theorem bumpAutomationStats_commentReplies (aid : String) (now : Nat) (w : World) :
    (bumpAutomationStats aid now w).db.commentReplies = w.db.commentReplies := rfl

/-- Every DM-send attempt of the comment loop appends exactly one
DeliveryRecord, keyed to this comment and recipient, whose status
reflects the outcome. -/
theorem dmSendStep_shape (c : CommentEv) (a : Automation) (now : Nat) (net : Net)
    (w : World) :
    ∃ r : DirectMessage,
      ((dmSendStep c a now net w).1).db.directMessages = w.db.directMessages ++ [r] ∧
      r.recipientUsername = jsOrStr c.fromUser.username "unknown" ∧
      r.commentId = some c.id ∧
      r.status = (if (dmSendStep c a now net w).2 then "sent" else "failed") := by
  simp only [dmSendStep, insertDM, remoteSend, freshId]
  split
  · split
    · exact ⟨_, rfl, rfl, rfl, by simp⟩
    · split
      · exact ⟨_, rfl, rfl, rfl, by simp⟩
      · exact ⟨_, rfl, rfl, rfl, by simp⟩
  · split
    · exact ⟨_, rfl, rfl, rfl, by simp⟩
    · exact ⟨_, rfl, rfl, rfl, by simp⟩

/-- The automation loop never takes the count of `sent` DeliveryRecords
for this comment's (recipient, comment id) pair above one (starting
from any store): a send is attempted only after the cross-automation
dedup lookup came back empty, and a successful send breaks the loop. -/
theorem pcwaLoop_pairSent_bound (c : CommentEv) (acct : Account) (now : Nat) (net : Net) :
    ∀ (as : List Automation) (w : World) (flag : Bool) (sent : Nat),
      pairSentCount ((pcwaLoop c acct now net as w flag sent).1).db c.fromUser.username c.id ≤
        max 1 (pairSentCount w.db c.fromUser.username c.id) := by
  intro as
  simp only [pairSentCount]
  induction as with
  | nil => intro w flag sent; exact le_max_right 1 _
  | cons a rest ih =>
    intro w flag sent
    simp only [pcwaLoop]
    split
    · exact ih w flag sent
    · split
      · exact le_max_right 1 _
      · rename_i hns
        split
        · exact ih w flag sent
        · split
          · exact ih w flag sent
          · -- token valid, dedup lookup empty: a send is attempted
            have hnone : w.db.directMessages.find? (dmPairPred c.fromUser.username c.id) = none :=
              Option.not_isSome_iff_eq_none.mp hns
            have h0 : countSentPair w.db.directMessages c.fromUser.username c.id = 0 :=
              countSentPair_zero_of_find?_none _ _ _ hnone
            set w₁ := (if a.replyToComments && !flag then replyStep c a now net w else w)
              with hw₁def
            have hw₁ : w₁.db.directMessages = w.db.directMessages := by
              rw [hw₁def]
              split
              · exact replyStep_directMessages c a now net w
              · rfl
            obtain ⟨r, hdm, -, -, hst⟩ := dmSendStep_shape c a now net w₁
            rcases hb : (dmSendStep c a now net w₁).2 with _ | _
            · -- send failed: the loop continues on the remaining automations
              simp only [hb, Bool.false_eq_true, if_false]
              refine le_trans (ih _ flag sent) ?_
              rw [hb] at hst
              simp only [if_false, Bool.false_eq_true] at hst
              rw [hdm, countSentPair_append, hw₁, h0, hst]
              simp
            · -- send succeeded: the loop breaks with exactly one new sent record
              simp only [hb, if_true]
              show countSentPair (bumpAutomationStats a.oid now _).db.directMessages _ _ ≤ _
              rw [bumpAutomationStats_directMessages, hdm, countSentPair_append, hw₁, h0]
              split <;> simp

/-- `insertComment` touches only the `comments` collection. -/
theorem insertComment_directMessages (c : CommentEv) (post : Post) (w : World) :
    (insertComment c post w).db.directMessages = w.db.directMessages := rfl

theorem insertComment_commentReplies (c : CommentEv) (post : Post) (w : World) :
    (insertComment c post w).db.commentReplies = w.db.commentReplies := rfl

/-- `markCommentProcessed` touches only the `comments` collection. -/
theorem markCommentProcessed_directMessages (cid : String) (w : World) :
    (markCommentProcessed cid w).db.directMessages = w.db.directMessages := rfl

theorem markCommentProcessed_commentReplies (cid : String) (w : World) :
    (markCommentProcessed cid w).db.commentReplies = w.db.commentReplies := rfl

/-- The `sent`-per-(recipient, comment) bound carried from the loop to
the whole of `processCommentWithAutomations`. -/
theorem pcwa_pairSent_bound (c : CommentEv) (post : Post) (acct : Account) (now : Nat)
    (net : Net) (w : World) :
    pairSentCount ((processCommentWithAutomations c post acct now net w).1).db
        c.fromUser.username c.id ≤
      max 1 (pairSentCount w.db c.fromUser.username c.id) := by
  have hmain : ∀ w' : World, w'.db.directMessages = w.db.directMessages →
      pairSentCount ((pcwaMain c post acct now net w').1).db c.fromUser.username c.id ≤
        max 1 (pairSentCount w.db c.fromUser.username c.id) := by
    intro w' hw'
    unfold pcwaMain
    dsimp only
    split
    · simp only [pairSentCount, hw']
      exact le_max_right 1 _
    · show pairSentCount (markCommentProcessed c.id _).db _ _ ≤ _
      have := pcwaLoop_pairSent_bound c acct now net
        (automationsFor w'.db post acct) w' false 0
      simp only [pairSentCount, markCommentProcessed_directMessages] at this ⊢
      rw [hw'] at this
      exact this
  unfold processCommentWithAutomations
  split
  · exact hmain _ (insertComment_directMessages c post w)
  · split
    · exact le_max_right 1 _
    · exact hmain w rfl

/-- One `replyStep` never takes the reply count for any comment id
above one: the insert is guarded by the `commentReplies` lookup. -/
theorem replyStep_replyCount (c : CommentEv) (a : Automation) (now : Nat) (net : Net)
    (w : World) (cid : String) :
    countReplies (replyStep c a now net w).db.commentReplies cid ≤
      max 1 (countReplies w.db.commentReplies cid) := by
  simp only [replyStep, insertReply, remoteSend, freshId]
  split
  · exact le_max_right 1 _
  · rename_i hfind
    split
    · show countReplies (w.db.commentReplies ++ [_]) cid ≤ _
      rw [countReplies_append]
      split
      · rename_i hc
        have hcid : c.id = cid := by
          have := of_decide_eq_true (by exact_mod_cast hc)
          exact this
        have h0 : countReplies w.db.commentReplies cid = 0 := by
          subst hcid
          exact countReplies_zero_of_find?_none _ _ (Option.not_isSome_iff_eq_none.mp hfind)
        rw [h0]
        exact le_max_left 1 _
      · simp only [Nat.add_zero]
        exact le_max_right 1 _
    · exact le_max_right 1 _

/-- The automation loop never takes the CommentReplyRecord count for
any comment id above one. -/
theorem pcwaLoop_reply_bound (c : CommentEv) (acct : Account) (now : Nat) (net : Net) :
    ∀ (as : List Automation) (w : World) (flag : Bool) (sent : Nat) (cid : String),
      countReplies ((pcwaLoop c acct now net as w flag sent).1).db.commentReplies cid ≤
        max 1 (countReplies w.db.commentReplies cid) := by
  intro as
  induction as with
  | nil => intro w flag sent cid; exact le_max_right 1 _
  | cons a rest ih =>
    intro w flag sent cid
    simp only [pcwaLoop]
    split
    · exact ih w flag sent cid
    · split
      · exact le_max_right 1 _
      · split
        · exact ih w flag sent cid
        · split
          · exact ih w flag sent cid
          · set w₁ := (if a.replyToComments && !flag then replyStep c a now net w else w)
              with hw₁def
            have hw₁ : countReplies w₁.db.commentReplies cid ≤
                max 1 (countReplies w.db.commentReplies cid) := by
              rw [hw₁def]
              split
              · exact replyStep_replyCount c a now net w cid
              · exact le_max_right 1 _
            have hpr : ((dmSendStep c a now net w₁).1).db.commentReplies
                = w₁.db.commentReplies := dmSendStep_commentReplies c a now net w₁
            rcases hb : (dmSendStep c a now net w₁).2 with _ | _
            · simp only [hb, Bool.false_eq_true, if_false]
              refine le_trans (ih _ flag sent cid) ?_
              rw [hpr]
              calc max 1 (countReplies w₁.db.commentReplies cid)
                  ≤ max 1 (max 1 (countReplies w.db.commentReplies cid)) :=
                    max_le_max le_rfl hw₁
                _ = max 1 (countReplies w.db.commentReplies cid) := by
                    rw [← max_assoc, max_self]
            · simp only [hb, if_true]
              show countReplies (bumpAutomationStats a.oid now _).db.commentReplies cid ≤ _
              rw [bumpAutomationStats_commentReplies, hpr]
              exact hw₁

/-- The reply bound carried to the whole of
`processCommentWithAutomations`. -/
theorem pcwa_reply_bound (c : CommentEv) (post : Post) (acct : Account) (now : Nat)
    (net : Net) (w : World) (cid : String) :
    replyCountFor ((processCommentWithAutomations c post acct now net w).1).db cid ≤
      max 1 (replyCountFor w.db cid) := by
  have hmain : ∀ w' : World, w'.db.commentReplies = w.db.commentReplies →
      replyCountFor ((pcwaMain c post acct now net w').1).db cid ≤
        max 1 (replyCountFor w.db cid) := by
    intro w' hw'
    unfold pcwaMain
    dsimp only
    split
    · simp only [replyCountFor, hw']
      exact le_max_right 1 _
    · show replyCountFor (markCommentProcessed c.id _).db cid ≤ _
      have := pcwaLoop_reply_bound c acct now net
        (automationsFor w'.db post acct) w' false 0 cid
      simp only [replyCountFor, markCommentProcessed_commentReplies] at this ⊢
      rw [hw'] at this
      exact this
  unfold processCommentWithAutomations
  split
  · exact hmain _ (insertComment_commentReplies c post w)
  · split
    · exact le_max_right 1 _
    · exact hmain w rfl

/-- A sequence of comment-processing runs: each item is one inbound
comment event with its resolved post, account and arrival time. -/
def runComments (net : Net) : List (CommentEv × Post × Account × Nat) → World → World
  | [], w => w
  | (c, post, acct, now) :: rest, w =>
    runComments net rest (processCommentWithAutomations c post acct now net w).1

/-! ## Concrete fixtures for witnesses and counterexamples -/

/-- An automation that matches every comment ("any" keyword). -/
def autoAny : Automation :=
  { oid := "a1"
    instagramAccountId := "acct1"
    postId := none
    type := "comment"
    triggerKeyword := "any"
    active := true
    message := some "Here you go!"
    addBranding := some false
    brandingMessage := none
    replyToComments := false
    commentReply := none
    useOpeningMessage := false
    openingMessage := none
    buttonText := none
    rateLimit := none
    totalDMsSent := 0
    lastTriggered := none }

def baseAcct : Account :=
  { oid := "acct1"
    userId := "u0"
    username := "owner"
    instagramId := some "ig1"
    recipientId := none
    accessToken := some "tok123" }

def basePost : Post :=
  { oid := "p1"
    instagramAccountId := "acct1"
    instagramId := "m1"
    caption := ""
    permalink := "" }

def emptyDB : DB :=
  { instagramAccounts := []
    posts := []
    comments := []
    automations := []
    directMessages := []
    commentReplies := []
    incomingMessages := []
    contacts := []
    messages := []
    instagramIdMappings := [] }

/-- Oracle on which every remote send succeeds. -/
def netAllOk : Net :=
  { remoteOk := fun _ => true
    fetchUsername := fun _ => none
    fetchPost := fun _ _ => none }

/-- Oracle on which every remote send fails. -/
def netAllFail : Net :=
  { remoteOk := fun _ => false
    fetchUsername := fun _ => none
    fetchPost := fun _ _ => none }

def cEv1 : CommentEv :=
  { id := "c1"
    media_id := "m1"
    text := some "please send the LINK"
    fromUser := { id := "u1", username := some "alice" } }

/-- A second automation matching `cEv1` by keyword. -/
def autoLink : Automation :=
  { autoAny with oid := "a2", triggerKeyword := "link" }

/-- A store holding the account, the post and two active automations
whose triggers both match `cEv1`. -/
def twoAutoWorld : World :=
  { db := { emptyDB with
      instagramAccounts := [baseAcct]
      posts := [basePost]
      automations := [autoAny, autoLink] }
    nextId := 0
    calls := 0
    sleeps := [] }

/-- A message-kind automation matching any text. -/
def msgAuto : Automation := { autoAny with oid := "ma1", type := "message" }

/-- A store for message events: the account plus one active message
automation. -/
def msgWorld : World :=
  { db := { emptyDB with instagramAccounts := [baseAcct], automations := [msgAuto] }
    nextId := 0
    calls := 0
    sleeps := [] }

/-- A message event addressed to the account's Instagram id. -/
def mEv1 : MessageEv :=
  { senderId := "u1"
    senderUsername := some "alice"
    recipientId := "ig1"
    text := some "hello"
    timestamp := some 1000
    isEcho := false }

/-! ## Claim theorems -/

/-- Claim C1: for every comment event and every set of automations,
after `processCommentWithAutomations` completes, at most one
DeliveryRecord with status `sent` exists correlated to that comment id
and recipient, even when several automations match: the orchestrator
checks for an existing DM for the (recipient, comment id) pair across
all automations and stops iterating once one send succeeds. -/
theorem comment_delivery_at_most_once (c : CommentEv) (post : Post) (acct : Account)
    (now : Nat) (net : Net) (w : World)
    (h : pairSentCount w.db c.fromUser.username c.id ≤ 1) :
    pairSentCount ((processCommentWithAutomations c post acct now net w).1).db
        c.fromUser.username c.id ≤ 1 := by
  have hb := pcwa_pairSent_bound c post acct now net w
  rwa [max_eq_left h] at hb

/-- Witness for C1: a concrete run on a fresh store with two matching
automations ends with at most one sent record for (alice, c1). -/
theorem comment_delivery_at_most_once_witness :
    pairSentCount ((processCommentWithAutomations cEv1 basePost baseAcct 5000000 netAllOk
        twoAutoWorld).1).db (some "alice") "c1" ≤ 1 :=
  comment_delivery_at_most_once cEv1 basePost baseAcct 5000000 netAllOk twoAutoWorld
    (by decide)

/-- Claim C2: for every comment id, at most one CommentReplyRecord
exists after any number of processing runs referencing that comment: a
public reply is recorded only when no CommentReplyRecord yet exists
for the comment id, at most once across the whole automation loop. -/
theorem comment_reply_at_most_once (net : Net) (runs : List (CommentEv × Post × Account × Nat))
    (w : World) (cid : String) :
    replyCountFor (runComments net runs w).db cid ≤ max 1 (replyCountFor w.db cid) := by
  induction runs generalizing w with
  | nil => exact le_max_right 1 _
  | cons item rest ih =>
    obtain ⟨c, post, acct, now⟩ := item
    show replyCountFor (runComments net rest
      (processCommentWithAutomations c post acct now net w).1).db cid ≤ _
    refine le_trans (ih _) ?_
    calc max 1 (replyCountFor ((processCommentWithAutomations c post acct now net w).1).db cid)
        ≤ max 1 (max 1 (replyCountFor w.db cid)) :=
          max_le_max le_rfl (pcwa_reply_bound c post acct now net w cid)
      _ = max 1 (replyCountFor w.db cid) := by rw [← max_assoc, max_self]

/-- Claim C8: the Trigger Matcher returns true when the keyword is
"any" (even for empty or absent text); otherwise it returns true
exactly when the case-folded text contains the case-folded keyword as
a substring, and absent or empty text never matches. -/
theorem trigger_matcher_spec :
    (∀ t : Option String, triggerMatched "any" t = true) ∧
    (∀ kw : String, kw ≠ "any" →
      triggerMatched kw none = false ∧ triggerMatched kw (some "") = false) ∧
    (∀ (kw t : String), kw ≠ "any" → t ≠ "" →
      (triggerMatched kw (some t) = true ↔
        jsIncludes (jsLower t) (jsLower kw) = true)) := by
  refine ⟨fun t => by simp [triggerMatched], fun kw hkw => ?_, fun kw t hkw ht => ?_⟩
  · have h : (kw == "any") = false := by simpa using hkw
    constructor <;> simp [triggerMatched, h]
  · have h : (kw == "any") = false := by simpa using hkw
    have h2 : (t == "") = false := by simpa using ht
    simp [triggerMatched, h, h2]

/-- Witness for C8 at the concrete inputs of the spec scenarios. -/
theorem trigger_matcher_spec_witness :
    (triggerMatched "link" (some "please send the LINK") = true ↔
      jsIncludes (jsLower "please send the LINK") (jsLower "link") = true) ∧
    triggerMatched "link" none = false ∧
    triggerMatched "any" (some "") = true :=
  ⟨trigger_matcher_spec.2.2 "link" "please send the LINK" (by decide) (by decide),
   (trigger_matcher_spec.2.1 "link" (by decide)).1,
   trigger_matcher_spec.1 (some "")⟩

/-! ## Claim C3: replaying a processed comment is a no-op -/

/-- Claim C3: replaying a comment event whose stored comment is already
marked processed returns the already-processed skip result and leaves
the whole store unchanged (in particular zero DeliveryRecords are
added). -/
theorem replay_processed_comment_noop (c : CommentEv) (now : Nat) (net : Net) (w : World)
    (hproc : commentAlreadyProcessed w.db c.id = true)
    (hself : isFromAutomationAccount w.db c = false) :
    processComment c now net w = (w, Except.ok (alreadyProcessedResult c.id)) := by
  unfold processComment
  rw [hself, hproc]
  simp

/-- A store in which comment c1 is stored and already processed. -/
def processedWorld : World :=
  { db := { emptyDB with
      instagramAccounts := [baseAcct]
      posts := [basePost]
      automations := [autoAny]
      comments := [{ oid := "sc1", commentId := "c1", mediaId := "m1", postId := "p1",
                     text := "please send the LINK", username := "alice", userId := "u1",
                     processed := true }] }
    nextId := 5
    calls := 0
    sleeps := [] }

/-- Witness for C3: the concrete replay of c1 is a no-op skip. -/
theorem replay_processed_comment_noop_witness :
    processComment cEv1 6000000 netAllOk processedWorld =
      (processedWorld, Except.ok (alreadyProcessedResult "c1")) :=
  replay_processed_comment_noop cEv1 6000000 netAllOk processedWorld (by decide) (by decide)

/-! ## Claim C4: the no-active-automations path -/

/-- A store whose only automation for the post is inactive. -/
def inactiveAutoWorld : World :=
  { db := { emptyDB with
      instagramAccounts := [baseAcct]
      posts := [basePost]
      automations := [{ autoAny with active := false }] }
    nextId := 0
    calls := 0
    sleeps := [] }

/-- Counterexample for C4 as stated: with only an inactive automation,
processing sends nothing and reports no active automations, but the
stored comment is NOT marked processed — the early return at
src/server.js:288-295 skips the mark-processed update of line 571. -/
theorem no_active_automations_counterexample :
    ((processCommentWithAutomations cEv1 basePost baseAcct 5000000 netAllOk
        inactiveAutoWorld).2.message = "No active automations found for post p1") ∧
    ((processCommentWithAutomations cEv1 basePost baseAcct 5000000 netAllOk
        inactiveAutoWorld).1.db.directMessages = []) ∧
    ((processCommentWithAutomations cEv1 basePost baseAcct 5000000 netAllOk
        inactiveAutoWorld).1.db.comments.map (fun sc => (sc.commentId, sc.processed))
      = [("c1", false)]) := by
  refine ⟨rfl, rfl, ?_⟩
  decide

/-- Claim C4 as amended: when no active automation exists for the
resolved post and account, processing adds no DeliveryRecord and
reports that no active automations were found, and the stored comment
REMAINS `processed: false` (the early return skips the mark-processed
step). -/
theorem no_active_automations_skip (c : CommentEv) (post : Post) (acct : Account)
    (now : Nat) (net : Net) (w : World)
    (hauto : automationsFor w.db post acct = [])
    (hnp : ∀ r ∈ w.db.comments, r.commentId = c.id → r.processed = false) :
    ((processCommentWithAutomations c post acct now net w).2.message
        = "No active automations found for post " ++ post.oid) ∧
    ((processCommentWithAutomations c post acct now net w).1.db.directMessages
        = w.db.directMessages) ∧
    (∀ r ∈ (processCommentWithAutomations c post acct now net w).1.db.comments,
        r.commentId = c.id → r.processed = false) := by
  have hmain : ∀ w' : World, automationsFor w'.db post acct = [] →
      pcwaMain c post acct now net w' = (w',
        { success := true
          message := "No active automations found for post " ++ post.oid
          processed := some false
          messagesSent := none }) := by
    intro w' h
    unfold pcwaMain
    rw [h]
    rfl
  unfold processCommentWithAutomations
  rcases hf : w.db.comments.find? (fun r => r.commentId == c.id) with _ | ec
  · rw [hf]
    have hauto' : automationsFor (insertComment c post w).db post acct = [] := hauto
    dsimp only
    rw [hmain _ hauto']
    refine ⟨rfl, rfl, ?_⟩
    intro r hr hrc
    simp only [insertComment, freshId, List.mem_append, List.mem_singleton] at hr
    rcases hr with hr | hr
    · exact hnp r hr hrc
    · rw [hr]
  · rw [hf]
    have hec : ec.processed = false := by
      have hmem := List.mem_of_find?_eq_some hf
      have hpred := List.find?_some hf
      have hcid : ec.commentId = c.id := by simpa using hpred
      exact hnp ec hmem hcid
    dsimp only
    rw [hec]
    simp only [Bool.false_eq_true, if_false]
    rw [hmain w hauto]
    exact ⟨rfl, rfl, hnp⟩

/-- Witness for the amended C4 at the concrete inactive-automation
store. -/
theorem no_active_automations_skip_witness :
    ((processCommentWithAutomations cEv1 basePost baseAcct 5000000 netAllOk
        inactiveAutoWorld).2.message = "No active automations found for post p1") ∧
    ((processCommentWithAutomations cEv1 basePost baseAcct 5000000 netAllOk
        inactiveAutoWorld).1.db.directMessages = inactiveAutoWorld.db.directMessages) ∧
    (∀ r ∈ (processCommentWithAutomations cEv1 basePost baseAcct 5000000 netAllOk
        inactiveAutoWorld).1.db.comments, r.commentId = "c1" → r.processed = false) :=
  no_active_automations_skip cEv1 basePost baseAcct 5000000 netAllOk inactiveAutoWorld
    (by decide) (by decide)

/-! ## Claim C7: the rate limiter -/

/-- A `sent` DeliveryRecord of automation a1 inside the trailing hour,
correlated to an older comment. -/
def oldSentDM (n : Nat) : DirectMessage :=
  { oid := "dm" ++ toString n
    automationId := "a1"
    recipientUsername := "bob"
    recipientId := "u9"
    commentId := some ("cOld" ++ toString n)
    message := some "x"
    dmType := some "direct"
    status := "sent"
    error := none
    sentAt := 4999000
    isAutomated := false }

/-- A fourth matching comment event arriving while automation a1
(rateLimit 3) already has three sent records in the trailing hour. -/
def cEvRL : CommentEv :=
  { id := "c9"
    media_id := "m1"
    text := some "hello there"
    fromUser := { id := "u1", username := some "alice" } }

def rateLimitedWorld : World :=
  { db := { emptyDB with
      instagramAccounts := [baseAcct]
      posts := [basePost]
      automations := [{ autoAny with rateLimit := some 3 }]
      directMessages := [oldSentDM 1, oldSentDM 2, oldSentDM 3] }
    nextId := 0
    calls := 0
    sleeps := [] }

/-- Claim C7: the rate limiter allows a send exactly when the count of
`sent` DeliveryRecords of the automation with `sentAt` in the trailing
hour is strictly below `rateLimit` (with 10 substituted when unset),
and a fourth matching event against rateLimit 3 with three sent
records is skipped without error and without a new DeliveryRecord. -/
theorem rate_limiter_spec :
    (∀ (db : DB) (a : Automation) (now : Nat),
      rateLimitExceeded db a now = false ↔
        recentSentCount db a.oid now < jsOrNat a.rateLimit 10) ∧
    jsOrNat none 10 = 10 ∧
    ((processCommentWithAutomations cEvRL basePost baseAcct 5000000 netAllOk
        rateLimitedWorld).2.success = true ∧
     (processCommentWithAutomations cEvRL basePost baseAcct 5000000 netAllOk
        rateLimitedWorld).2.messagesSent = some 0 ∧
     (processCommentWithAutomations cEvRL basePost baseAcct 5000000 netAllOk
        rateLimitedWorld).1.db.directMessages = rateLimitedWorld.db.directMessages) := by
  refine ⟨fun db a now => ?_, rfl, ?_, ?_, ?_⟩
  · rw [rateLimitExceeded, decide_eq_false_iff_not, Nat.not_le]
  · decide
  · decide
  · decide

/-! ## Claim C5: the stored inbound message is never marked processed -/

/-- Claim C5 (code bug): the inbound message record stored by
`processMessage` does NOT transition to `processed: true` after the
automation loop: the insert of src/server.js:804-812 writes no
`recipientId` field, while the mark-processed `updateMany` of lines
1060-1066 filters on `recipientId: recipient.id`, which never matches
a document missing that field.  At the concrete failing input the run
completes successfully yet leaves its stored record `processed:
false`. -/
theorem stored_message_never_marked_processed :
    ((processMessage mEv1 5000000 netAllOk msgWorld).1.db.incomingMessages.map
        (fun m => (m.senderId, m.recipientId, m.processed)) = [("u1", none, false)]) ∧
    ((processMessage mEv1 5000000 netAllOk msgWorld).2.success = true) := by
  constructor
  · decide
  · decide

/-! ## Claim C6: retry semantics of a failing outbound send -/

/-- Counterexample for C6 as stated: on the comment path a failing
outbound send is attempted exactly once — a single remote call and no
backoff wait — before the terminal `failed` DeliveryRecord is logged,
so "every outbound send ... attempted up to 3 times" is false. -/
theorem comment_send_single_attempt_counterexample :
    ((processCommentWithAutomations cEv1 basePost baseAcct 5000000 netAllFail
        twoAutoWorld).1.calls = 1) ∧
    ((processCommentWithAutomations cEv1 basePost baseAcct 5000000 netAllFail
        twoAutoWorld).1.sleeps = []) ∧
    ((processCommentWithAutomations cEv1 basePost baseAcct 5000000 netAllFail
        twoAutoWorld).1.db.directMessages.map (fun d => d.status) = ["failed"]) := by
  refine ⟨?_, ?_, ?_⟩ <;> decide

/-- Claim C6 as amended: the up-to-3-attempts retry with linear backoff
(attempt × 1 second between attempts) applies to the message path's
outbound send, which records a terminal `failed` DeliveryRecord only
after all three attempts fail; on the comment path a failing send is
not retried, and its failure does not abort evaluation of the
remaining automations — the loop continues on the rest. -/
theorem send_retry_spec :
    (∀ (net : Net) (w : World),
      net.remoteOk w.calls = false → net.remoteOk (w.calls + 1) = false →
        net.remoteOk (w.calls + 2) = false →
      sendWithRetry net w =
        (false, { w with calls := w.calls + 3, sleeps := w.sleeps ++ [1000, 2000] })) ∧
    (∀ (c : CommentEv) (acct : Account) (now : Nat) (net : Net) (a : Automation)
        (rest : List Automation) (w : World) (flag : Bool) (sent : Nat),
      triggerMatched a.triggerKeyword c.text = true →
      w.db.directMessages.find? (dmPairPred c.fromUser.username c.id) = none →
      rateLimitExceeded w.db a now = false →
      tokenValid acct.accessToken = true →
      (a.replyToComments && !flag) = false →
      (dmSendStep c a now net w).2 = false →
      pcwaLoop c acct now net (a :: rest) w flag sent =
        pcwaLoop c acct now net rest (dmSendStep c a now net w).1 flag sent) ∧
    (((processMessage mEv1 5000000 netAllFail msgWorld).1.calls = 3) ∧
     ((processMessage mEv1 5000000 netAllFail msgWorld).1.sleeps = [1000, 2000]) ∧
     ((processMessage mEv1 5000000 netAllFail msgWorld).1.db.directMessages.map
        (fun d => d.status) = ["failed"])) := by
  refine ⟨fun net w h1 h2 h3 => ?_, fun c acct now net a rest w flag sent ht hd hr hk hf hs => ?_,
    by decide, by decide, by decide⟩
  · simp only [sendWithRetry, h1, h2, h3]
    simp [List.append_assoc]
  · simp only [pcwaLoop, ht, hd, hr, hk, hf, hs]
    simp [ht, hd, hr, hk, hf, hs]

/-- Witness for the amended C6 at concrete inputs: three failing
attempts end with the 1s and 2s waits logged, and the comment loop
with a failing first automation continues on the second. -/
theorem send_retry_spec_witness :
    (sendWithRetry netAllFail twoAutoWorld =
      (false, { twoAutoWorld with calls := 3, sleeps := [1000, 2000] })) ∧
    (pcwaLoop cEv1 baseAcct 5000000 netAllFail [autoAny, autoLink] twoAutoWorld false 0 =
      pcwaLoop cEv1 baseAcct 5000000 netAllFail [autoLink]
        (dmSendStep cEv1 autoAny 5000000 netAllFail twoAutoWorld).1 false 0) :=
  ⟨send_retry_spec.1 netAllFail twoAutoWorld rfl rfl rfl,
   send_retry_spec.2.1 cEv1 baseAcct 5000000 netAllFail autoAny [autoLink] twoAutoWorld
     false 0 (by decide) (by decide) (by decide) (by decide) (by decide) (by decide)⟩

/-! ## Claims C9 and C10: staleness handling in the poller -/

/-- Claim C9: an unprocessed message pulled by the poller whose
timestamp is older than 24 hours is never delivered: it is marked
`processed: true` with `skipped: true` and skip reason "Too old", and
it is not among the messages re-fed to `processMessage` (so no remote
send is attempted for it). -/
theorem stale_pending_message_skipped (w : World) (now : Nat) (net : Net)
    (m : IncomingMessage) (t : Nat)
    (hm : m ∈ pendingBatch w.db)
    (ht : m.timestamp = some t)
    (hold : t + 86400000 < now) :
    (∃ r ∈ ((pollPendingMessagesOnce now net w).1).db.incomingMessages,
        r.oid = m.oid ∧ r.processed = true ∧ r.skipped = true ∧
        r.skipReason = some "Too old") ∧
    m ∉ (pollPendingMessagesOnce now net w).2.1 := by
  have hle : t ≤ now - 86400000 := le_of_lt (Nat.lt_sub_of_add_lt hold)
  have hrecent : pollRecentPred (now - 86400000) m = false := by
    simp [pollRecentPred, ht, not_lt.mpr hle]
  have hstale : pollStalePred (now - 86400000) m = true := by
    simp [pollStalePred, ht, hle]
  have hmdb : m ∈ w.db.incomingMessages :=
    (List.mem_filter.mp (List.mem_of_mem_take hm)).1
  have hmoid : m.oid ∈ ((pendingBatch w.db).filter
      (pollStalePred (now - 86400000))).map (fun m => m.oid) :=
    List.mem_map_of_mem _ (List.mem_filter.mpr ⟨hm, hstale⟩)
  have hcontains : (((pendingBatch w.db).filter
      (pollStalePred (now - 86400000))).map (fun m => m.oid)).contains m.oid = true := by
    simpa using hmoid
  have hlen : ((pendingBatch w.db).filter (pollRecentPred (now - 86400000))).length <
      (pendingBatch w.db).length :=
    List.length_filter_lt_length_iff_exists.mpr ⟨m, hm, by simp [hrecent]⟩
  constructor
  · show ∃ r ∈ (List.foldl _ (if ((pendingBatch w.db).filter
        (pollRecentPred (now - 86400000))).length < (pendingBatch w.db).length then _ else w)
        ((pendingBatch w.db).filter (pollRecentPred (now - 86400000)))).db.incomingMessages, _
    rw [if_pos hlen]
    have hmark : pollMarkStale (((pendingBatch w.db).filter
        (pollStalePred (now - 86400000))).map (fun m => m.oid)) m
        = { m with processed := true, skipped := true, skipReason := some "Too old" } := by
      simp only [pollMarkStale, hcontains, if_true]
    refine ⟨pollMarkStale (((pendingBatch w.db).filter
        (pollStalePred (now - 86400000))).map (fun m => m.oid)) m,
      refeed_preserves_processed now net _ _ _ (List.mem_map_of_mem _ hmdb) ?_, ?_, ?_, ?_, ?_⟩
    all_goals rw [hmark]
  · intro hcontra
    have hpr := (List.mem_filter.mp hcontra).2
    rw [hrecent] at hpr
    exact Bool.false_ne_true hpr

/-- A pending message whose stored timestamp is 24 hours old. -/
def staleMsg : IncomingMessage :=
  { oid := "im1"
    instagramAccountId := "acct1"
    senderId := "u1"
    senderUsername := "alice"
    message := "hi"
    timestamp := some 1000
    recipientId := none
    processed := false
    skipped := false
    skipReason := none }

def staleWorld : World :=
  { db := { emptyDB with instagramAccounts := [baseAcct], incomingMessages := [staleMsg] }
    nextId := 0
    calls := 0
    sleeps := [] }

/-- Witness for C9 at a concrete stale message. -/
theorem stale_pending_message_skipped_witness :
    (∃ r ∈ ((pollPendingMessagesOnce 100000000 netAllOk staleWorld).1).db.incomingMessages,
        r.oid = staleMsg.oid ∧ r.processed = true ∧ r.skipped = true ∧
        r.skipReason = some "Too old") ∧
    staleMsg ∉ (pollPendingMessagesOnce 100000000 netAllOk staleWorld).2.1 :=
  stale_pending_message_skipped staleWorld 100000000 netAllOk staleMsg 1000
    (by decide) rfl (by decide)

/-- Claim C10: a pending message with no stored timestamp is never
classified as stale by the poller: however old it is, it is excluded
from the mark-as-skipped id set and is re-fed to `processMessage` with
the recent batch. -/
theorem missing_timestamp_never_stale (w : World) (now : Nat) (net : Net)
    (m : IncomingMessage)
    (hm : m ∈ pendingBatch w.db)
    (ht : m.timestamp = none)
    (hnodup : (w.db.incomingMessages.map (fun x => x.oid)).Nodup) :
    m ∈ (pollPendingMessagesOnce now net w).2.1 ∧
    m.oid ∉ (pollPendingMessagesOnce now net w).2.2 := by
  have hrecent : pollRecentPred (now - 86400000) m = true := by
    simp [pollRecentPred, ht]
  constructor
  · show m ∈ (pendingBatch w.db).filter (pollRecentPred (now - 86400000))
    exact List.mem_filter.mpr ⟨hm, hrecent⟩
  · show m.oid ∉ ((pendingBatch w.db).filter
      (pollStalePred (now - 86400000))).map (fun x => x.oid)
    intro hcon
    obtain ⟨x, hx, hxoid⟩ := List.mem_map.mp hcon
    have hxf := List.mem_filter.mp hx
    have hxdb : x ∈ w.db.incomingMessages :=
      (List.mem_filter.mp (List.mem_of_mem_take hxf.1)).1
    have hmdb : m ∈ w.db.incomingMessages :=
      (List.mem_filter.mp (List.mem_of_mem_take hm)).1
    have hxm : x = m := List.inj_on_of_nodup_map hnodup hxdb hmdb hxoid
    have hs := hxf.2
    rw [hxm] at hs
    simp [pollStalePred, ht] at hs

/-- A pending message with no timestamp field. -/
def noTsMsg : IncomingMessage := { staleMsg with oid := "im2", timestamp := none }

def noTsWorld : World :=
  { db := { emptyDB with instagramAccounts := [baseAcct], incomingMessages := [noTsMsg] }
    nextId := 0
    calls := 0
    sleeps := [] }

/-- Witness for C10 at a concrete timestamp-less message. -/
theorem missing_timestamp_never_stale_witness :
    noTsMsg ∈ (pollPendingMessagesOnce 100000000 netAllOk noTsWorld).2.1 ∧
    noTsMsg.oid ∉ (pollPendingMessagesOnce 100000000 netAllOk noTsWorld).2.2 :=
  missing_timestamp_never_stale noTsWorld 100000000 netAllOk noTsMsg
    (by decide) rfl (by decide)

end ServerDM